import Mathlib
set_option maxRecDepth 16000
/-!
Shallow embedding of `src/main/sensors/esc_sensor.c` (KISS ESC telemetry
acquisition) and proofs about it.
Machine integers are modelled as `Nat` with explicit truncation where the C
types force it: `% 256` for `uint8_t` stores, `% 65536` for `uint16_t`
stores, `% 4294967296` for `uint32_t` arithmetic.  The mutable C globals
become one explicit state record `EscState`; external collaborators
(`getMotorCount()`, the clock, the serial and motor-output drivers) become
parameters or outputs of the step functions.
-/

namespace EscSensor

/-- Modelled from the spec: the per-motor telemetry record `escSensorData_t`
is declared in `esc_sensor.h`, which is not part of the given sources; the
spec's data model fixes its fields as `stale: bool`, `temperature: u8`,
`voltage: u16`, `current: u16`, `consumption: u16`, `rpm: u16`. -/
structure escSensorData_t where
  stale : Bool
  temperature : Nat
  voltage : Nat
  current : Nat
  consumption : Nat
  rpm : Nat
deriving Repr, DecidableEq

def ESC_SENSOR_BUFFSIZE : Nat := 10

def ESC_BOOTTIME : Nat := 5000

def ESC_REQUEST_TIMEOUT : Nat := 100

def ESC_SENSOR_FRAME_PENDING : Nat := 1

def ESC_SENSOR_FRAME_COMPLETE : Nat := 2

def ESC_SENSOR_TRIGGER_WAIT : Nat := 0

def ESC_SENSOR_TRIGGER_READY : Nat := 1

def ESC_SENSOR_TRIGGER_PENDING : Nat := 2

/-- Modelled from the spec: `MAX_SUPPORTED_MOTORS` comes from the platform
headers (not in the given sources); it is the length of the
`escSensorData[]` array, the spec bounds active motors by a small fixed
fleet; the exact value is the customary 8 and no claim depends on it. -/
def MAX_SUPPORTED_MOTORS : Nat := 8

/-- Modelled from the spec: `ESC_SENSOR_COMBINED` is the reserved combined
pseudo-index declared in `esc_sensor.h` (not in the given sources); it must
exceed any motor count so that `getEscSensorData` reaches the combined
branch.  255 is the conventional value. -/
def ESC_SENSOR_COMBINED : Nat := 255

/-- Modulus of `uint32_t` arithmetic. -/
def UINT32_MOD : Nat := 4294967296

/-- The mutable file-scope state of `esc_sensor.c`, gathered in one record.
`escSensorData` is a total map; the C array has only `MAX_SUPPORTED_MOTORS`
slots, so any access at an index `≥ MAX_SUPPORTED_MOTORS` is out of bounds
in the C program (see the claim about index clamping). -/
structure EscState where
  tlmFrameDone : Bool
  tlm : List Nat
  tlmFramePosition : Nat
  escSensorPortOpen : Bool
  escSensorData : Nat → escSensorData_t
  escTriggerTimestamp : Nat
  escLastResponseTimestamp : Nat
  timeoutRetryCount : Nat
  totalRetryCount : Nat
  escSensorMotor : Nat
  escSensorEnabled : Bool
  escSensorTriggerState : Nat

/-- One shift step of `update_crc8`:
`crc_u = ( crc_u & 0x80 ) ? 0x7 ^ ( crc_u << 1 ) : ( crc_u << 1 );`
with the result stored back into a `uint8_t`. -/
def crcStep (c : Nat) : Nat :=
  if c &&& 0x80 ≠ 0 then (0x7 ^^^ (c <<< 1)) % 256 else (c <<< 1) % 256

/-- `static uint8_t update_crc8(uint8_t crc, uint8_t crc_seed)`. -/
def update_crc8 (crc crc_seed : Nat) : Nat :=
  crcStep^[8] ((crc ^^^ crc_seed) % 256)

/-- `static uint8_t get_crc8(uint8_t *Buf, uint8_t BufLen)`: fold
`update_crc8(Buf[i], crc)` over `i = 0 .. BufLen-1` starting from 0. -/
def get_crc8 (buf : List Nat) (bufLen : Nat) : Nat :=
  (buf.take bufLen).foldl (fun crc b => update_crc8 b crc) 0

/-- Modelled from the spec: one shift step of the reference CRC-8
("if the top bit of `acc` is set, `acc = (acc << 1) XOR 0x07`, else
`acc = acc << 1`; acc stays 8-bit (truncate each step)"). -/
def specCrcStep (acc : Nat) : Nat :=
  if Nat.testBit acc 7 then ((acc <<< 1) ^^^ 0x07) % 256 else (acc <<< 1) % 256

/-- Modelled from the spec: absorb one byte: "set `acc = acc XOR b`; then
repeat 8 times" the shift step. -/
def specCrcByte (acc b : Nat) : Nat :=
  specCrcStep^[8] ((acc ^^^ b) % 256)

/-- Modelled from the spec: the reference CRC-8 of a payload, "starting from
an accumulator of 0", applied "sequentially to each of bytes 0..8". -/
def specCrc8 (payload : List Nat) : Nat :=
  payload.foldl specCrcByte 0

/-- The five stores of `escSensorFrameStatus` into
`escSensorData[escSensorMotor]` on a CRC match (big-endian 16-bit pairs,
truncated by the `uint8_t`/`uint16_t` field types). -/
def decodeFrame (tlm : List Nat) : escSensorData_t :=
  { stale := false
    temperature := tlm.getD 0 0 % 256
    voltage := ((tlm.getD 1 0) <<< 8 ||| tlm.getD 2 0) % 65536
    current := ((tlm.getD 3 0) <<< 8 ||| tlm.getD 4 0) % 65536
    consumption := ((tlm.getD 5 0) <<< 8 ||| tlm.getD 6 0) % 65536
    rpm := ((tlm.getD 7 0) <<< 8 ||| tlm.getD 8 0) % 65536 }

/-- `static uint8_t escSensorFrameStatus(void)`, returning the status byte
together with the new state. -/
def escSensorFrameStatus (s : EscState) : Nat × EscState :=
  if s.tlmFrameDone = false then
    (ESC_SENSOR_FRAME_PENDING, s)
  else
    let s1 := { s with tlmFrameDone := false }
    let chksum := get_crc8 s1.tlm (ESC_SENSOR_BUFFSIZE - 1)
    let tlmsum := s1.tlm.getD (ESC_SENSOR_BUFFSIZE - 1) 0
    if chksum = tlmsum then
      (ESC_SENSOR_FRAME_COMPLETE,
       { s1 with escSensorData :=
          Function.update s1.escSensorData s1.escSensorMotor (decodeFrame s1.tlm) })
    else
      (ESC_SENSOR_FRAME_PENDING, s1)

/-- `static void escSensorDataReceive(uint16_t c)` — the receive ISR
callback.  `(uint8_t)c` is `c % 256`; `tlmFramePosition++` is a `uint8_t`
increment. -/
def escSensorDataReceive (c : Nat) (s : EscState) : EscState :=
  if s.escSensorTriggerState = ESC_SENSOR_TRIGGER_WAIT then s
  else
    let s1 := { s with tlm := s.tlm.set s.tlmFramePosition (c % 256) }
    if s1.tlmFramePosition = ESC_SENSOR_BUFFSIZE - 1 then
      { s1 with tlmFrameDone := true, tlmFramePosition := 0 }
    else
      { s1 with tlmFramePosition := (s1.tlmFramePosition + 1) % 256 }

/-- `static void selectNextMotor(void)`.  `escSensorMotor++` is a `uint8_t`
increment; the wrap to 0 happens only on exact equality with
`getMotorCount()`.  `millis()` is passed in as `nowMs`. -/
def selectNextMotor (motorCount nowMs : Nat) (s : EscState) : EscState :=
  let m := (s.escSensorMotor + 1) % 256
  let m2 := if m = motorCount then 0 else m
  { s with escSensorMotor := m2, timeoutRetryCount := 0, escTriggerTimestamp := nowMs }

/-- `static void resetEscSensorData(void)`.  The C loop is
`for (int i; i < MAX_SUPPORTED_MOTORS; i = i + 1) escSensorData[i].stale = true;`
— the loop variable `i` is read uninitialized, so its starting value is
indeterminate.  That indeterminate start is the explicit parameter `i0`:
the loop marks stale exactly the indices `i0 ≤ j < MAX_SUPPORTED_MOTORS`.
(A negative garbage value would additionally write out of bounds; `i0 = 0`
is the intended behavior.) -/
def resetEscSensorData (i0 : Nat) (d : Nat → escSensorData_t) : Nat → escSensorData_t :=
  fun j => if i0 ≤ j ∧ j < MAX_SUPPORTED_MOTORS then { (d j) with stale := true } else d j

/-- The zero-initialized local `combinedEscSensorData` of
`getEscSensorData`. -/
def emptyCombined : escSensorData_t :=
  { stale := true, temperature := 0, voltage := 0, current := 0, consumption := 0, rpm := 0 }

/-- One iteration of the aggregation loop of `getEscSensorData`: skip stale
entries, otherwise accumulate into the `uint8_t`/`uint16_t` fields of the
running combined record and bump `activeSensors`. -/
def combineStep (c : escSensorData_t × Nat) (e : escSensorData_t) : escSensorData_t × Nat :=
  if e.stale = false then
    ({ c.1 with
        temperature := (max c.1.temperature e.temperature) % 256
        voltage := (c.1.voltage + e.voltage) % 65536
        current := (c.1.current + e.current) % 65536
        consumption := (c.1.consumption + e.consumption) % 65536
        rpm := (c.1.rpm + e.rpm) % 65536 }, c.2 + 1)
  else c

/-- `escSensorData_t getEscSensorData(uint8_t motorNumber)`.
`getMotorCount()` is the parameter `motorCount`; the per-motor store is the
parameter `d`. -/
def getEscSensorData (motorCount : Nat) (d : Nat → escSensorData_t)
    (motorNumber : Nat) : escSensorData_t :=
  if motorNumber < motorCount then d motorNumber
  else if motorNumber = ESC_SENSOR_COMBINED then
    let p := ((List.range motorCount).map d).foldl combineStep (emptyCombined, 0)
    if p.2 > 0 then
      { p.1 with stale := false, voltage := p.1.voltage / p.2, rpm := p.1.rpm / p.2 }
    else p.1
  else emptyCombined

/-- `bool isEscSensorActive(void)`. -/
def isEscSensorActive (s : EscState) : Bool :=
  s.escSensorEnabled

/-- `static void freeEscSensorPort(void)`. -/
def freeEscSensorPort (s : EscState) : EscState :=
  { s with escSensorPortOpen := false, escSensorEnabled := false }

/-- `bool escSensorInit(void)`.  `portConfigFound` models
`findSerialPortConfig` succeeding, `portOpens` models `openSerialPort`
returning non-NULL, and `i0` is the indeterminate start of the
uninitialized loop variable inside `resetEscSensorData` (see there). -/
def escSensorInit (portConfigFound portOpens : Bool) (i0 : Nat)
    (s : EscState) : EscState × Bool :=
  if portConfigFound = false then (s, false)
  else
    let s1 := { s with escSensorPortOpen := portOpens,
                       escSensorEnabled := if portOpens then true else s.escSensorEnabled }
    ({ s1 with escSensorData := resetEscSensorData i0 s1.escSensorData }, portOpens)

/-- `void escSensorProcess(timeUs_t currentTimeUs)` — one scheduler tick.
Outputs the new state and, when the READY branch ran
`getMotorDmaOutput(escSensorMotor)->requestTelemetry = true`, the index of
the motor the request was issued for (`none` otherwise).
`motorCount` is `getMotorCount()`; `i0` is the indeterminate start of the
uninitialized loop variable inside `resetEscSensorData`, threaded through
for the teardown path; `millis()` inside `selectNextMotor` and the tick's
`currentTimeMs` read the same clock and are identified. -/
def escSensorProcess (motorCount i0 currentTimeUs : Nat) (s : EscState) :
    EscState × Option Nat :=
  let currentTimeMs := (currentTimeUs % UINT32_MOD) / 1000
  if s.escSensorEnabled = false then (s, none)
  else if currentTimeMs < ESC_BOOTTIME then (s, none)
  else
    let sr :=
      if s.escSensorTriggerState = ESC_SENSOR_TRIGGER_WAIT then
        ({ s with escSensorTriggerState := ESC_SENSOR_TRIGGER_READY,
                  escSensorMotor := 0,
                  escTriggerTimestamp := currentTimeMs,
                  escLastResponseTimestamp := currentTimeMs }, (none : Option Nat))
      else if s.escSensorTriggerState = ESC_SENSOR_TRIGGER_READY then
        ({ s with escSensorTriggerState := ESC_SENSOR_TRIGGER_PENDING },
         some s.escSensorMotor)
      else if s.escSensorTriggerState = ESC_SENSOR_TRIGGER_PENDING then
        let s2 :=
          if (s.escTriggerTimestamp + ESC_REQUEST_TIMEOUT) % UINT32_MOD < currentTimeMs then
            let sa := { s with timeoutRetryCount := (s.timeoutRetryCount + 1) % 256,
                               escTriggerTimestamp := currentTimeMs,
                               escSensorTriggerState := ESC_SENSOR_TRIGGER_READY }
            let sb :=
              if sa.timeoutRetryCount = 4 then
                let entry := { (sa.escSensorData sa.escSensorMotor) with stale := true }
                let sc :=
                  { sa with escSensorData := Function.update sa.escSensorData sa.escSensorMotor entry }
                selectNextMotor motorCount currentTimeMs sc
              else sa
            { sb with totalRetryCount := (sb.totalRetryCount + 1) % 256 }
          else s
        let r := escSensorFrameStatus s2
        if r.1 = ESC_SENSOR_FRAME_COMPLETE then
          ({ (selectNextMotor motorCount currentTimeMs r.2) with
               escSensorTriggerState := ESC_SENSOR_TRIGGER_READY,
               escLastResponseTimestamp := currentTimeMs }, none)
        else (r.2, none)
      else (s, none)
    if (sr.1.escLastResponseTimestamp + 10000) % UINT32_MOD < currentTimeMs then
      ({ (freeEscSensorPort sr.1) with
           escSensorData := resetEscSensorData i0 sr.1.escSensorData }, sr.2)
    else sr

/-! ### CRC: equality of the source CRC with the spec's reference CRC -/

/-- Concrete all-zero valid frame state for the CRC round-trip witness
(the CRC-8 of nine zero bytes is zero). -/
def sC1frame : EscState :=
  { tlmFrameDone := true, tlm := List.replicate 10 0, tlmFramePosition := 0,
    escSensorPortOpen := true, escSensorData := fun _ => emptyCombined,
    escTriggerTimestamp := 5000, escLastResponseTimestamp := 5000,
    timeoutRetryCount := 0, totalRetryCount := 0, escSensorMotor := 0,
    escSensorEnabled := true, escSensorTriggerState := ESC_SENSOR_TRIGGER_PENDING }

/-! ### Concrete states used by witnesses and counterexamples -/

/-- A store in which every motor holds a fresh (non-stale) reading. -/
def freshData : Nat → escSensorData_t := fun _ =>
  { stale := false, temperature := 10, voltage := 100, current := 50,
    consumption := 7, rpm := 300 }

/-- Concrete PENDING state holding a completed frame whose checksum byte (5)
does not match the CRC-8 of its first nine bytes (0). -/
def sC9frame : EscState :=
  { tlmFrameDone := true, tlm := List.replicate 9 0 ++ [5], tlmFramePosition := 0,
    escSensorPortOpen := true, escSensorData := freshData,
    escTriggerTimestamp := 6000, escLastResponseTimestamp := 6000,
    timeoutRetryCount := 0, totalRetryCount := 0, escSensorMotor := 0,
    escSensorEnabled := true, escSensorTriggerState := ESC_SENSOR_TRIGGER_PENDING }

/-- Concrete armed (PENDING) assembler state with the cursor on the final
slot. -/
def sC10 : EscState :=
  { tlmFrameDone := false, tlm := List.replicate 10 0, tlmFramePosition := 9,
    escSensorPortOpen := true, escSensorData := freshData,
    escTriggerTimestamp := 6000, escLastResponseTimestamp := 6000,
    timeoutRetryCount := 0, totalRetryCount := 0, escSensorMotor := 0,
    escSensorEnabled := true, escSensorTriggerState := ESC_SENSOR_TRIGGER_PENDING }

/-- Concrete READY state with all readings fresh and a last successful
response so old (timestamp 0) that the 10-second link-failure window has
elapsed at the tick time used below. -/
def sC5 : EscState :=
  { tlmFrameDone := false, tlm := List.replicate 10 0, tlmFramePosition := 0,
    escSensorPortOpen := true, escSensorData := freshData,
    escTriggerTimestamp := 14000, escLastResponseTimestamp := 0,
    timeoutRetryCount := 0, totalRetryCount := 0, escSensorMotor := 0,
    escSensorEnabled := true, escSensorTriggerState := ESC_SENSOR_TRIGGER_READY }

/-- Concrete PENDING state whose target motor index (3) is already at or
above a shrunken motor count of 2. -/
def sC7 : EscState :=
  { tlmFrameDone := false, tlm := List.replicate 10 0, tlmFramePosition := 0,
    escSensorPortOpen := true, escSensorData := freshData,
    escTriggerTimestamp := 6000, escLastResponseTimestamp := 6000,
    timeoutRetryCount := 0, totalRetryCount := 0, escSensorMotor := 3,
    escSensorEnabled := true, escSensorTriggerState := ESC_SENSOR_TRIGGER_PENDING }

/-- Concrete PENDING state at the retry ceiling boundary: three timeouts
already counted for motor 0, the request timed out, and a valid all-zero
frame is simultaneously complete in the buffer. -/
def sC2 : EscState :=
  { tlmFrameDone := true, tlm := List.replicate 10 0, tlmFramePosition := 0,
    escSensorPortOpen := true, escSensorData := freshData,
    escTriggerTimestamp := 5000, escLastResponseTimestamp := 5000,
    timeoutRetryCount := 3, totalRetryCount := 0, escSensorMotor := 0,
    escSensorEnabled := true, escSensorTriggerState := ESC_SENSOR_TRIGGER_PENDING }

/-- Two fresh readings whose voltages sum past the 16-bit range, plus stale
entries elsewhere. -/
def dC6 : Nat → escSensorData_t := fun i =>
  if i = 0 then
    { stale := false, temperature := 10, voltage := 40000, current := 50,
      consumption := 3, rpm := 100 }
  else if i = 1 then
    { stale := false, temperature := 20, voltage := 40000, current := 150,
      consumption := 4, rpm := 200 }
  else
    { stale := true, temperature := 0, voltage := 0, current := 0,
      consumption := 0, rpm := 0 }

/-- Concrete PENDING state for the retry-ceiling witness: three consecutive
timeouts already counted for motor 0, no frame pending. -/
def sC4 : EscState :=
  { tlmFrameDone := false, tlm := List.replicate 10 0, tlmFramePosition := 0,
    escSensorPortOpen := true, escSensorData := freshData,
    escTriggerTimestamp := 5000, escLastResponseTimestamp := 5000,
    timeoutRetryCount := 3, totalRetryCount := 0, escSensorMotor := 0,
    escSensorEnabled := true, escSensorTriggerState := ESC_SENSOR_TRIGGER_PENDING }

/-- Concrete enabled WAIT state as left by a successful init. -/
def sW : EscState :=
  { tlmFrameDone := false, tlm := List.replicate 10 0, tlmFramePosition := 0,
    escSensorPortOpen := true, escSensorData := resetEscSensorData 0 freshData,
    escTriggerTimestamp := UINT32_MOD - 1, escLastResponseTimestamp := 0,
    timeoutRetryCount := 0, totalRetryCount := 0, escSensorMotor := 0,
    escSensorEnabled := true, escSensorTriggerState := ESC_SENSOR_TRIGGER_WAIT }

/-- The non-stale readings among the active motors `0 .. motorCount-1`,
in index order: exactly the entries the combined aggregation visits. -/
def activeReadings (motorCount : Nat) (d : Nat → escSensorData_t) : List escSensorData_t :=
  ((List.range motorCount).map d).filter (fun e => !e.stale)

lemma crcStep_eq_specCrcStep : ∀ c < 256, crcStep c = specCrcStep c := by decide

lemma crcStep_lt (c : Nat) : crcStep c < 256 := by
  unfold crcStep; split <;> exact Nat.mod_lt _ (by norm_num)

lemma specCrcStep_lt (c : Nat) : specCrcStep c < 256 := by
  unfold specCrcStep; split <;> exact Nat.mod_lt _ (by norm_num)

lemma iterate_crcStep_eq_specCrcStep :
    ∀ (n c : Nat), c < 256 → crcStep^[n] c = specCrcStep^[n] c := by
  intro n
  induction n with
  | zero => intro c _; simp
  | succ k ih =>
      intro c hc
      rw [Function.iterate_succ_apply, Function.iterate_succ_apply,
        crcStep_eq_specCrcStep c hc]
      exact ih _ (specCrcStep_lt c)

lemma update_crc8_eq_specCrcByte (b acc : Nat) : update_crc8 b acc = specCrcByte acc b := by
  unfold update_crc8 specCrcByte
  rw [Nat.xor_comm]
  exact iterate_crcStep_eq_specCrcStep 8 _ (Nat.mod_lt _ (by norm_num))

lemma get_crc8_eq_specCrc8 (l : List Nat) (h : l.length ≤ 9) :
    get_crc8 l 9 = specCrc8 l := by
  unfold get_crc8 specCrc8
  rw [List.take_of_length_le h]
  have hf : (fun crc b => update_crc8 b crc) = specCrcByte :=
    funext fun a => funext fun b => update_crc8_eq_specCrcByte b a
  rw [hf]

lemma get_crc8_append_last (l : List Nat) (x : Nat) (h : l.length = 9) :
    get_crc8 (l ++ [x]) 9 = get_crc8 l 9 := by
  unfold get_crc8
  congr 1
  rw [List.take_of_length_le (le_of_eq h)]
  have := List.take_left l [x]
  rwa [h] at this

lemma getD_append_last (l : List Nat) (x : Nat) (h : l.length = 9) :
    (l ++ [x]).getD 9 0 = x := by
  have h1 : (l ++ [x])[(9 : Nat)]? = some x := by
    have := List.getElem?_concat_length l x
    rwa [h] at this
  simp [List.getD, h1]

/-- C1: for every 9-byte payload, the source checksum (`get_crc8` over bytes
0..8) equals the reference CRC-8 described by the spec (`specCrc8`), and a
10-byte frame formed by appending that checksum as byte 9 is accepted by
`escSensorFrameStatus` as a complete (valid) frame. -/
theorem crc_roundtrip_matches_spec (payload : List Nat) (s : EscState)
    (h9 : payload.length = 9) (hdone : s.tlmFrameDone = true)
    (htlm : s.tlm = payload ++ [get_crc8 payload 9]) :
    get_crc8 payload 9 = specCrc8 payload ∧
    (escSensorFrameStatus s).1 = ESC_SENSOR_FRAME_COMPLETE := by
  constructor
  · exact get_crc8_eq_specCrc8 payload (le_of_eq h9)
  · simp only [escSensorFrameStatus, hdone]
    rw [htlm]
    have e1 : ESC_SENSOR_BUFFSIZE - 1 = 9 := rfl
    rw [e1, get_crc8_append_last payload _ h9, getD_append_last payload _ h9]
    simp

theorem crc_roundtrip_matches_spec_witness :
    (List.replicate 9 0).length = 9 ∧
    get_crc8 (List.replicate 9 0) 9 = specCrc8 (List.replicate 9 0) ∧
    (escSensorFrameStatus sC1frame).1 = ESC_SENSOR_FRAME_COMPLETE :=
  ⟨by decide,
   (crc_roundtrip_matches_spec (List.replicate 9 0) sC1frame (by decide) rfl (by decide)).1,
   (crc_roundtrip_matches_spec (List.replicate 9 0) sC1frame (by decide) rfl (by decide)).2⟩

/-- C9: a completed frame is discarded on CRC mismatch and ignored when no
frame is complete: if `tlmFrameDone` is clear, `escSensorFrameStatus` returns
the pending status and leaves the state untouched; if a completed frame's
CRC-8 over bytes 0..8 differs from byte 9, it returns the pending status,
clears only the completion flag, leaves the telemetry store unchanged, and a
scheduler tick in the PENDING state with no elapsed timeout treats this as an
ordinary non-response (state unchanged except the cleared flag, no request). -/
theorem invalid_frame_discarded (mc i0 tus : Nat) (s : EscState)
    (htus : tus < UINT32_MOD) :
    (s.tlmFrameDone = false → escSensorFrameStatus s = (ESC_SENSOR_FRAME_PENDING, s)) ∧
    (s.tlmFrameDone = true → get_crc8 s.tlm 9 ≠ s.tlm.getD 9 0 →
      escSensorFrameStatus s = (ESC_SENSOR_FRAME_PENDING, { s with tlmFrameDone := false })) ∧
    (s.escSensorEnabled = true → s.escSensorTriggerState = ESC_SENSOR_TRIGGER_PENDING →
      ESC_BOOTTIME ≤ tus / 1000 →
      ¬ (s.escTriggerTimestamp + ESC_REQUEST_TIMEOUT) % UINT32_MOD < tus / 1000 →
      ¬ (s.escLastResponseTimestamp + 10000) % UINT32_MOD < tus / 1000 →
      s.tlmFrameDone = true → get_crc8 s.tlm 9 ≠ s.tlm.getD 9 0 →
      escSensorProcess mc i0 tus s = ({ s with tlmFrameDone := false }, none)) := by
  have e1 : ESC_SENSOR_BUFFSIZE - 1 = 9 := rfl
  have hframe : ∀ (hdone : s.tlmFrameDone = true),
      get_crc8 s.tlm 9 ≠ s.tlm.getD 9 0 →
      escSensorFrameStatus s = (ESC_SENSOR_FRAME_PENDING, { s with tlmFrameDone := false }) := by
    intro hdone hcrc
    simp only [escSensorFrameStatus, hdone, e1]
    simp [hcrc]
    intro h
    exact absurd h (by simpa [List.getD] using hcrc)
  refine ⟨?_, hframe, ?_⟩
  · intro h
    simp [escSensorFrameStatus, h]
  · intro hen hst hboot hto hnt hdone hcrc
    have hms : tus % UINT32_MOD = tus := Nat.mod_eq_of_lt htus
    have hfs := hframe hdone hcrc
    simp only [ESC_BOOTTIME] at hboot
    simp [escSensorProcess, hms, hen, hst, hto, hnt, hfs, Nat.not_lt.mpr hboot,
      ESC_SENSOR_TRIGGER_WAIT, ESC_SENSOR_TRIGGER_READY, ESC_SENSOR_TRIGGER_PENDING,
      ESC_BOOTTIME, ESC_SENSOR_FRAME_PENDING, ESC_SENSOR_FRAME_COMPLETE]

theorem invalid_frame_discarded_witness :
    sC9frame.tlmFrameDone = true ∧
    get_crc8 sC9frame.tlm 9 ≠ sC9frame.tlm.getD 9 0 ∧
    escSensorProcess 4 0 6050000 sC9frame = ({ sC9frame with tlmFrameDone := false }, none) :=
  ⟨rfl, by decide,
   (invalid_frame_discarded 4 0 6050000 sC9frame (by decide)).2.2 rfl rfl (by decide)
     (by decide) (by decide) rfl (by decide)⟩

/-- C10: the frame assembler's write cursor stays within `0 ≤ cursor ≤ 9`:
the byte-receive callback is a pure no-op in the WAIT state; otherwise it
writes exactly one byte at the cursor (which is inside the 10-byte buffer),
and then either raises the completion flag and resets the cursor to 0 (on
the final slot) or increments the cursor. -/
theorem receive_cursor_invariant (c : Nat) (s : EscState)
    (hpos : s.tlmFramePosition ≤ 9) (hlen : s.tlm.length = 10) :
    (s.escSensorTriggerState = ESC_SENSOR_TRIGGER_WAIT → escSensorDataReceive c s = s) ∧
    (s.escSensorTriggerState ≠ ESC_SENSOR_TRIGGER_WAIT →
      (escSensorDataReceive c s).tlm = s.tlm.set s.tlmFramePosition (c % 256) ∧
      s.tlmFramePosition < s.tlm.length ∧
      (escSensorDataReceive c s).tlm.length = 10 ∧
      (escSensorDataReceive c s).tlmFramePosition ≤ 9 ∧
      (s.tlmFramePosition = 9 →
        (escSensorDataReceive c s).tlmFrameDone = true ∧
        (escSensorDataReceive c s).tlmFramePosition = 0) ∧
      (s.tlmFramePosition ≠ 9 →
        (escSensorDataReceive c s).tlmFramePosition = s.tlmFramePosition + 1 ∧
        (escSensorDataReceive c s).tlmFrameDone = s.tlmFrameDone)) := by
  have e1 : ESC_SENSOR_BUFFSIZE - 1 = 9 := rfl
  constructor
  · intro h
    simp [escSensorDataReceive, h]
  · intro h
    by_cases h9 : s.tlmFramePosition = 9
    · have hrec : escSensorDataReceive c s =
          { s with tlm := s.tlm.set s.tlmFramePosition (c % 256),
                   tlmFrameDone := true, tlmFramePosition := 0 } := by
        simp [escSensorDataReceive, if_neg h, e1, h9]
      rw [hrec]
      refine ⟨rfl, by omega, ?_, ?_, fun _ => ⟨rfl, rfl⟩, fun hne => absurd h9 hne⟩
      · show (s.tlm.set s.tlmFramePosition (c % 256)).length = 10
        simp [hlen]
      · show (0 : Nat) ≤ 9
        omega
    · have hp : (s.tlmFramePosition + 1) % 256 = s.tlmFramePosition + 1 :=
        Nat.mod_eq_of_lt (by omega)
      have hrec : escSensorDataReceive c s =
          { s with tlm := s.tlm.set s.tlmFramePosition (c % 256),
                   tlmFramePosition := s.tlmFramePosition + 1 } := by
        simp [escSensorDataReceive, if_neg h, e1, h9, hp]
      rw [hrec]
      refine ⟨rfl, by omega, ?_, ?_, fun h9' => absurd h9' h9, fun _ => ⟨rfl, rfl⟩⟩
      · show (s.tlm.set s.tlmFramePosition (c % 256)).length = 10
        simp [hlen]
      · show s.tlmFramePosition + 1 ≤ 9
        omega

theorem receive_cursor_invariant_witness :
    sC10.tlmFramePosition ≤ 9 ∧
    (escSensorDataReceive 300 sC10).tlmFrameDone = true ∧
    (escSensorDataReceive 300 sC10).tlmFramePosition = 0 :=
  ⟨by decide,
   ((receive_cursor_invariant 300 sC10 (by decide) (by decide)).2 (by decide)).2.2.2.2.1 rfl |>.1,
   ((receive_cursor_invariant 300 sC10 (by decide) (by decide)).2 (by decide)).2.2.2.2.1 rfl |>.2⟩

/-- C3: the full store reset loop reads its loop variable uninitialized.
With a nonzero indeterminate start (here 1), `resetEscSensorData` leaves
motor 0's reading non-stale, so the operation does not mark every motor
stale; with the intended start 0 it does mark all `MAX_SUPPORTED_MOTORS`
entries stale. -/
theorem reset_uninitialized_start_misses_motor :
    (freshData 0).stale = false ∧
    (resetEscSensorData 1 freshData 0).stale = false ∧
    ((List.range MAX_SUPPORTED_MOTORS).all
      fun j => (resetEscSensorData 0 freshData j).stale) = true := by
  decide

/-- C5: on the teardown tick (15 s with last response at 0) the subsystem
does release the port, clear the enabled flag, and stay inert on later
ticks - but the store reset runs its loop from an uninitialized variable,
so with a nonzero indeterminate start (here 1) motor 0's reading stays
non-stale after teardown, and both the per-motor read and the combined
read still report non-stale data, contradicting the claim that every
motor's reading reports stale. -/
theorem teardown_reset_incomplete :
    isEscSensorActive (escSensorProcess 4 1 15000000 sC5).1 = false ∧
    (escSensorProcess 4 1 15000000 sC5).1.escSensorPortOpen = false ∧
    ((escSensorProcess 4 1 15000000 sC5).1.escSensorData 0).stale = false ∧
    (getEscSensorData 4 (escSensorProcess 4 1 15000000 sC5).1.escSensorData 0).stale = false ∧
    (getEscSensorData 4 (escSensorProcess 4 1 15000000 sC5).1.escSensorData
      ESC_SENSOR_COMBINED).stale = false ∧
    escSensorProcess 4 1 16000000 (escSensorProcess 4 1 15000000 sC5).1 =
      ((escSensorProcess 4 1 15000000 sC5).1, none) :=
  ⟨by decide, by decide, by decide, by decide, by decide, rfl⟩

/-- C7: `selectNextMotor` wraps to 0 only when the incremented index equals
the motor count exactly.  If the motor count has shrunk to 2 while the
target is 3, the advance yields 4 (not a wrap or clamp into range), and
five further advances push the index to `MAX_SUPPORTED_MOTORS` = 8 - an
out-of-bounds index for the C per-motor array `escSensorData[]` which
`escSensorFrameStatus` and `getMotorDmaOutput` would then use. -/
theorem select_next_motor_escapes_range :
    (selectNextMotor 2 0 sC7).escSensorMotor = 4 ∧
    ¬ (selectNextMotor 2 0 sC7).escSensorMotor < 2 ∧
    ((fun s => selectNextMotor 2 0 s)^[5] sC7).escSensorMotor = MAX_SUPPORTED_MOTORS ∧
    ¬ ((fun s => selectNextMotor 2 0 s)^[5] sC7).escSensorMotor < MAX_SUPPORTED_MOTORS := by
  decide

/-- C2 counterexample: in the PENDING state with the timeout elapsed and a
complete valid frame available in the same tick, the code runs the timeout
bookkeeping first.  From `sC2` (three prior timeouts, motor 0 targeted,
motor count 2) the tick at 5101 ms increments the counter to the ceiling,
marks motor 0 stale and abandons it, and only then consumes the frame -
storing the decoded data under motor 1, not under motor 0 which was
targeted when the frame arrived.  This falsifies "the timeout counter is
not incremented against that response, the motor is not abandoned, and the
decoded data is stored for the motor that was targeted". -/
theorem pending_timeout_first_counterexample :
    (sC2.escSensorData 0).stale = false ∧
    sC2.tlmFrameDone = true ∧
    get_crc8 sC2.tlm 9 = sC2.tlm.getD 9 0 ∧
    ((escSensorProcess 2 0 5101000 sC2).1.escSensorData 0).stale = true ∧
    (escSensorProcess 2 0 5101000 sC2).1.escSensorData 1 = decodeFrame sC2.tlm ∧
    ((escSensorProcess 2 0 5101000 sC2).1.escSensorData 1).stale = false := by
  decide

/-- C6 counterexample: the combined pseudo-reading accumulates into
`uint16_t` fields, so the sums wrap mod 65536 before the division.  With
two non-stale readings of voltage 40000 each (motor count 2), the true
arithmetic mean is 40000, but the combined reading reports
(40000 + 40000) mod 65536 / 2 = 7232. -/
theorem combined_overflow_counterexample :
    (dC6 0).stale = false ∧ (dC6 1).stale = false ∧
    (dC6 0).voltage = 40000 ∧ (dC6 1).voltage = 40000 ∧
    ((dC6 0).voltage + (dC6 1).voltage) / 2 = 40000 ∧
    (getEscSensorData 2 dC6 ESC_SENSOR_COMBINED).voltage = 7232 ∧
    (getEscSensorData 2 dC6 ESC_SENSOR_COMBINED).voltage ≠ 40000 := by
  decide

lemma frameStatus_of_not_done (t : EscState) (ht : t.tlmFrameDone = false) :
    escSensorFrameStatus t = (ESC_SENSOR_FRAME_PENDING, t) := by
  simp [escSensorFrameStatus, ht]

lemma wrap_next (m mc : Nat) (hm : m < mc) (hmc : mc ≤ 255) :
    (if (m + 1) % 256 = mc then 0 else (m + 1) % 256) = (m + 1) % mc := by
  have h1 : (m + 1) % 256 = m + 1 := Nat.mod_eq_of_lt (by omega)
  rw [h1]
  by_cases h : m + 1 = mc
  · simp [h, Nat.mod_self]
  · rw [if_neg h, Nat.mod_eq_of_lt (by omega)]

/-- C4: in the PENDING state with no frame available, each elapsed request
timeout increments the consecutive-timeout counter, resets the request
timestamp, and returns the scheduler to READY for a retry of the same
motor; when the incremented counter reaches the ceiling of 4, the targeted
motor's reading is marked stale, the scheduler advances round-robin to the
next motor (wrapping to 0), and the per-motor counter is reset. -/
theorem retry_ceiling_behavior (mc i0 tus : Nat) (s : EscState)
    (hen : s.escSensorEnabled = true)
    (hst : s.escSensorTriggerState = ESC_SENSOR_TRIGGER_PENDING)
    (htus : tus < UINT32_MOD)
    (hboot : ESC_BOOTTIME ≤ tus / 1000)
    (hto : (s.escTriggerTimestamp + ESC_REQUEST_TIMEOUT) % UINT32_MOD < tus / 1000)
    (hnt : ¬ (s.escLastResponseTimestamp + 10000) % UINT32_MOD < tus / 1000)
    (hdone : s.tlmFrameDone = false)
    (hr : s.timeoutRetryCount < 4)
    (hm : s.escSensorMotor < mc) (hmc : mc ≤ 255) :
    (escSensorProcess mc i0 tus s).2 = none ∧
    (escSensorProcess mc i0 tus s).1.escSensorTriggerState = ESC_SENSOR_TRIGGER_READY ∧
    (s.timeoutRetryCount + 1 ≠ 4 →
      (escSensorProcess mc i0 tus s).1.timeoutRetryCount = s.timeoutRetryCount + 1 ∧
      (escSensorProcess mc i0 tus s).1.escSensorMotor = s.escSensorMotor ∧
      (escSensorProcess mc i0 tus s).1.escSensorData = s.escSensorData ∧
      (escSensorProcess mc i0 tus s).1.escTriggerTimestamp = tus / 1000) ∧
    (s.timeoutRetryCount + 1 = 4 →
      (escSensorProcess mc i0 tus s).1.timeoutRetryCount = 0 ∧
      ((escSensorProcess mc i0 tus s).1.escSensorData s.escSensorMotor).stale = true ∧
      (escSensorProcess mc i0 tus s).1.escSensorMotor = (s.escSensorMotor + 1) % mc) := by
  have hms : tus % UINT32_MOD = tus := Nat.mod_eq_of_lt htus
  have hr256 : (s.timeoutRetryCount + 1) % 256 = s.timeoutRetryCount + 1 :=
    Nat.mod_eq_of_lt (by omega)
  simp only [ESC_BOOTTIME] at hboot
  by_cases h4 : s.timeoutRetryCount + 1 = 4
  · have hrec : escSensorProcess mc i0 tus s =
        ({ s with
            escSensorData := Function.update s.escSensorData s.escSensorMotor
              { (s.escSensorData s.escSensorMotor) with stale := true },
            escSensorMotor := (s.escSensorMotor + 1) % mc,
            timeoutRetryCount := 0,
            escTriggerTimestamp := tus / 1000,
            escSensorTriggerState := ESC_SENSOR_TRIGGER_READY,
            totalRetryCount := (s.totalRetryCount + 1) % 256 }, none) := by
      simp [escSensorProcess, hms, hen, hst, hto, hnt, hdone, hr256, h4,
        Nat.not_lt.mpr hboot, selectNextMotor, wrap_next _ _ hm hmc,
        frameStatus_of_not_done, ESC_SENSOR_TRIGGER_WAIT, ESC_SENSOR_TRIGGER_READY,
        ESC_SENSOR_TRIGGER_PENDING, ESC_BOOTTIME, ESC_SENSOR_FRAME_PENDING,
        ESC_SENSOR_FRAME_COMPLETE]
    rw [hrec]
    exact ⟨rfl, rfl, fun h => absurd h4 h,
      fun _ => ⟨rfl, by simp [Function.update_same], rfl⟩⟩
  · have hrec : escSensorProcess mc i0 tus s =
        ({ s with
            timeoutRetryCount := s.timeoutRetryCount + 1,
            escTriggerTimestamp := tus / 1000,
            escSensorTriggerState := ESC_SENSOR_TRIGGER_READY,
            totalRetryCount := (s.totalRetryCount + 1) % 256 }, none) := by
      simp [escSensorProcess, hms, hen, hst, hto, hnt, hdone, hr256, h4,
        Nat.not_lt.mpr hboot, frameStatus_of_not_done, ESC_SENSOR_TRIGGER_WAIT,
        ESC_SENSOR_TRIGGER_READY, ESC_SENSOR_TRIGGER_PENDING, ESC_BOOTTIME,
        ESC_SENSOR_FRAME_PENDING, ESC_SENSOR_FRAME_COMPLETE]
    rw [hrec]
    exact ⟨rfl, rfl, fun _ => ⟨rfl, rfl, rfl, rfl⟩, fun h => absurd h h4⟩

theorem retry_ceiling_behavior_witness :
    (escSensorProcess 2 0 5101000 sC4).2 = none ∧
    ((escSensorProcess 2 0 5101000 sC4).1.escSensorData 0).stale = true ∧
    (escSensorProcess 2 0 5101000 sC4).1.escSensorMotor = (0 + 1) % 2 :=
  ⟨(retry_ceiling_behavior 2 0 5101000 sC4 rfl rfl (by decide) (by decide) (by decide)
      (by decide) rfl (by decide) (by decide) (by decide)).1,
   ((retry_ceiling_behavior 2 0 5101000 sC4 rfl rfl (by decide) (by decide) (by decide)
      (by decide) rfl (by decide) (by decide) (by decide)).2.2.2 rfl).2.1,
   ((retry_ceiling_behavior 2 0 5101000 sC4 rfl rfl (by decide) (by decide) (by decide)
      (by decide) rfl (by decide) (by decide) (by decide)).2.2.2 rfl).2.2⟩

/-- C2 (amended): in the PENDING state, on a tick where the request timeout
has elapsed and a complete valid frame is simultaneously available, the
code runs the timeout bookkeeping first and the frame check second.  If
the incremented timeout counter stays below the ceiling of 4, the frame is
still decoded into the motor that was targeted when it arrived, the
counter nets out to 0 and the scheduler returns to READY with the
last-response timestamp updated; but if the increment reaches the ceiling,
the targeted motor is first marked stale and abandoned, and the frame's
data is stored under the next motor in rotation. -/
theorem pending_timeout_then_frame_order (mc i0 tus : Nat) (s : EscState)
    (hen : s.escSensorEnabled = true)
    (hst : s.escSensorTriggerState = ESC_SENSOR_TRIGGER_PENDING)
    (htus : tus < UINT32_MOD)
    (hboot : ESC_BOOTTIME ≤ tus / 1000)
    (hto : (s.escTriggerTimestamp + ESC_REQUEST_TIMEOUT) % UINT32_MOD < tus / 1000)
    (hdone : s.tlmFrameDone = true)
    (hcrc : get_crc8 s.tlm 9 = s.tlm.getD 9 0)
    (hr : s.timeoutRetryCount < 4)
    (hm : s.escSensorMotor < mc) (hmc : mc ≤ 255) :
    (escSensorProcess mc i0 tus s).2 = none ∧
    (escSensorProcess mc i0 tus s).1.escSensorTriggerState = ESC_SENSOR_TRIGGER_READY ∧
    (escSensorProcess mc i0 tus s).1.escLastResponseTimestamp = tus / 1000 ∧
    (escSensorProcess mc i0 tus s).1.timeoutRetryCount = 0 ∧
    (s.timeoutRetryCount + 1 ≠ 4 →
      (escSensorProcess mc i0 tus s).1.escSensorData s.escSensorMotor = decodeFrame s.tlm ∧
      (escSensorProcess mc i0 tus s).1.escSensorMotor = (s.escSensorMotor + 1) % mc) ∧
    (s.timeoutRetryCount + 1 = 4 →
      (escSensorProcess mc i0 tus s).1.escSensorData ((s.escSensorMotor + 1) % mc) =
        decodeFrame s.tlm ∧
      ((s.escSensorMotor + 1) % mc ≠ s.escSensorMotor →
        ((escSensorProcess mc i0 tus s).1.escSensorData s.escSensorMotor).stale = true) ∧
      (escSensorProcess mc i0 tus s).1.escSensorMotor =
        ((s.escSensorMotor + 1) % mc + 1) % mc) := by
  have hms : tus % UINT32_MOD = tus := Nat.mod_eq_of_lt htus
  have hr256 : (s.timeoutRetryCount + 1) % 256 = s.timeoutRetryCount + 1 :=
    Nat.mod_eq_of_lt (by omega)
  have htus' : tus < 4294967296 := htus
  have h1 : tus / 1000 + 10000 < UINT32_MOD := by
    show tus / 1000 + 10000 < 4294967296
    omega
  have hnt2 : ¬ (tus / 1000 + 10000) % UINT32_MOD < tus / 1000 := by
    rw [Nat.mod_eq_of_lt h1]; omega
  have hcrc' : get_crc8 s.tlm 9 = s.tlm[9]?.getD 0 := by
    simpa [List.getD] using hcrc
  have e1 : ESC_SENSOR_BUFFSIZE - 1 = 9 := rfl
  have hm1 : (s.escSensorMotor + 1) % mc < mc := Nat.mod_lt _ (by omega)
  simp only [ESC_BOOTTIME] at hboot
  by_cases h4 : s.timeoutRetryCount + 1 = 4
  · have hrec : escSensorProcess mc i0 tus s =
        ({ s with
            tlmFrameDone := false,
            escSensorData := Function.update
              (Function.update s.escSensorData s.escSensorMotor
                { (s.escSensorData s.escSensorMotor) with stale := true })
              ((s.escSensorMotor + 1) % mc) (decodeFrame s.tlm),
            escSensorMotor := ((s.escSensorMotor + 1) % mc + 1) % mc,
            timeoutRetryCount := 0,
            escTriggerTimestamp := tus / 1000,
            escSensorTriggerState := ESC_SENSOR_TRIGGER_READY,
            escLastResponseTimestamp := tus / 1000,
            totalRetryCount := (s.totalRetryCount + 1) % 256 }, none) := by
      simp [escSensorProcess, escSensorFrameStatus, hms, hen, hst, hto, hdone, hcrc', e1,
        hr256, h4, hnt2, Nat.not_lt.mpr hboot, selectNextMotor, wrap_next _ _ hm hmc,
        wrap_next _ _ hm1 hmc, ESC_SENSOR_TRIGGER_WAIT, ESC_SENSOR_TRIGGER_READY,
        ESC_SENSOR_TRIGGER_PENDING, ESC_BOOTTIME, ESC_SENSOR_FRAME_PENDING,
        ESC_SENSOR_FRAME_COMPLETE]
    rw [hrec]
    refine ⟨rfl, rfl, rfl, rfl, fun h => absurd h4 h, fun _ => ⟨?_, ?_, rfl⟩⟩
    · simp [Function.update_same]
    · intro hne
      simp [Function.update_noteq (Ne.symm hne), Function.update_same]
  · have hrec : escSensorProcess mc i0 tus s =
        ({ s with
            tlmFrameDone := false,
            escSensorData := Function.update s.escSensorData s.escSensorMotor
              (decodeFrame s.tlm),
            escSensorMotor := (s.escSensorMotor + 1) % mc,
            timeoutRetryCount := 0,
            escTriggerTimestamp := tus / 1000,
            escSensorTriggerState := ESC_SENSOR_TRIGGER_READY,
            escLastResponseTimestamp := tus / 1000,
            totalRetryCount := (s.totalRetryCount + 1) % 256 }, none) := by
      simp [escSensorProcess, escSensorFrameStatus, hms, hen, hst, hto, hdone, hcrc', e1,
        hr256, h4, hnt2, Nat.not_lt.mpr hboot, selectNextMotor, wrap_next _ _ hm hmc,
        ESC_SENSOR_TRIGGER_WAIT, ESC_SENSOR_TRIGGER_READY, ESC_SENSOR_TRIGGER_PENDING,
        ESC_BOOTTIME, ESC_SENSOR_FRAME_PENDING, ESC_SENSOR_FRAME_COMPLETE]
    rw [hrec]
    refine ⟨rfl, rfl, rfl, rfl, fun _ => ⟨?_, rfl⟩, fun h => absurd h h4⟩
    simp [Function.update_same]

theorem pending_timeout_then_frame_order_witness :
    (escSensorProcess 2 0 5101000 sC2).2 = none ∧
    (escSensorProcess 2 0 5101000 sC2).1.escSensorData ((0 + 1) % 2) = decodeFrame sC2.tlm ∧
    (escSensorProcess 2 0 5101000 sC2).1.escSensorMotor = ((0 + 1) % 2 + 1) % 2 :=
  ⟨(pending_timeout_then_frame_order 2 0 5101000 sC2 rfl rfl (by decide) (by decide)
      (by decide) rfl (by decide) (by decide) (by decide) (by decide)).1,
   ((pending_timeout_then_frame_order 2 0 5101000 sC2 rfl rfl (by decide) (by decide)
      (by decide) rfl (by decide) (by decide) (by decide) (by decide)).2.2.2.2.2 rfl).1,
   ((pending_timeout_then_frame_order 2 0 5101000 sC2 rfl rfl (by decide) (by decide)
      (by decide) rfl (by decide) (by decide) (by decide) (by decide)).2.2.2.2.2 rfl).2.2⟩

/-- C8: while less than the 5000 ms boot-settle delay has elapsed, a tick
changes nothing and issues no request; on the first tick at or after the
delay, a WAIT scheduler moves to READY, selects motor 0 and sets both the
request timestamp and the last-response timestamp to the current
millisecond time, still issuing no request; the first telemetry request
(for motor 0) goes out on the next tick, which moves READY to PENDING. -/
theorem boot_settle_behavior (mc i0 tus tus2 : Nat) (s : EscState)
    (hen : s.escSensorEnabled = true)
    (hwait : s.escSensorTriggerState = ESC_SENSOR_TRIGGER_WAIT)
    (htus : tus < UINT32_MOD) (htus2 : tus2 < UINT32_MOD) :
    (tus / 1000 < ESC_BOOTTIME → escSensorProcess mc i0 tus s = (s, none)) ∧
    (ESC_BOOTTIME ≤ tus / 1000 →
      escSensorProcess mc i0 tus s =
        ({ s with escSensorTriggerState := ESC_SENSOR_TRIGGER_READY,
                  escSensorMotor := 0,
                  escTriggerTimestamp := tus / 1000,
                  escLastResponseTimestamp := tus / 1000 }, none) ∧
      (ESC_BOOTTIME ≤ tus2 / 1000 → tus2 / 1000 ≤ tus / 1000 + 10000 →
        escSensorProcess mc i0 tus2 (escSensorProcess mc i0 tus s).1 =
          ({ (escSensorProcess mc i0 tus s).1 with
               escSensorTriggerState := ESC_SENSOR_TRIGGER_PENDING }, some 0))) := by
  have hms : tus % UINT32_MOD = tus := Nat.mod_eq_of_lt htus
  have hms2 : tus2 % UINT32_MOD = tus2 := Nat.mod_eq_of_lt htus2
  refine ⟨?_, ?_⟩
  · intro h
    simp [escSensorProcess, hms, hen, h]
  · intro hboot
    simp only [ESC_BOOTTIME] at hboot
    have htus' : tus < 4294967296 := htus
    have h1 : tus / 1000 + 10000 < UINT32_MOD := by
      show tus / 1000 + 10000 < 4294967296
      omega
    have hnt2 : ¬ (tus / 1000 + 10000) % UINT32_MOD < tus / 1000 := by
      rw [Nat.mod_eq_of_lt h1]; omega
    have hrec1 : escSensorProcess mc i0 tus s =
        ({ s with escSensorTriggerState := ESC_SENSOR_TRIGGER_READY,
                  escSensorMotor := 0,
                  escTriggerTimestamp := tus / 1000,
                  escLastResponseTimestamp := tus / 1000 }, none) := by
      simp [escSensorProcess, hms, hen, hwait, hnt2, Nat.not_lt.mpr hboot,
        ESC_SENSOR_TRIGGER_WAIT, ESC_BOOTTIME]
    refine ⟨hrec1, ?_⟩
    intro hboot2 hle
    simp only [ESC_BOOTTIME] at hboot2
    rw [hrec1]
    have hnt3 : ¬ (tus / 1000 + 10000) % UINT32_MOD < tus2 / 1000 := by
      rw [Nat.mod_eq_of_lt h1]; omega
    simp [escSensorProcess, hms2, hen, hnt3, Nat.not_lt.mpr hboot2,
      ESC_SENSOR_TRIGGER_WAIT, ESC_SENSOR_TRIGGER_READY, ESC_SENSOR_TRIGGER_PENDING,
      ESC_BOOTTIME]

theorem boot_settle_behavior_witness :
    escSensorProcess 4 0 4000000 sW = (sW, none) ∧
    escSensorProcess 4 0 6000000 sW =
      ({ sW with escSensorTriggerState := ESC_SENSOR_TRIGGER_READY,
                 escSensorMotor := 0,
                 escTriggerTimestamp := 6000,
                 escLastResponseTimestamp := 6000 }, none) ∧
    escSensorProcess 4 0 6001000 (escSensorProcess 4 0 6000000 sW).1 =
      ({ (escSensorProcess 4 0 6000000 sW).1 with
           escSensorTriggerState := ESC_SENSOR_TRIGGER_PENDING }, some 0) :=
  ⟨(boot_settle_behavior 4 0 4000000 6001000 sW rfl rfl (by decide) (by decide)).1
     (by decide),
   ((boot_settle_behavior 4 0 6000000 6001000 sW rfl rfl (by decide) (by decide)).2
     (by decide)).1,
   ((boot_settle_behavior 4 0 6000000 6001000 sW rfl rfl (by decide) (by decide)).2
     (by decide)).2 (by decide) (by decide)⟩

lemma combine_foldl (l : List escSensorData_t) (c : escSensorData_t) (n : Nat)
    (hT : c.temperature < 256) (hV : c.voltage < 65536) (hI : c.current < 65536)
    (hCo : c.consumption < 65536) (hR : c.rpm < 65536)
    (hl : ∀ e ∈ l, e.temperature < 256) :
    (l.foldl combineStep (c, n)).2 = n + (l.filter (fun e => !e.stale)).length ∧
    (l.foldl combineStep (c, n)).1.stale = c.stale ∧
    (l.foldl combineStep (c, n)).1.temperature =
      ((l.filter (fun e => !e.stale)).map escSensorData_t.temperature).foldl max
        c.temperature ∧
    (l.foldl combineStep (c, n)).1.voltage =
      (c.voltage + ((l.filter (fun e => !e.stale)).map escSensorData_t.voltage).sum)
        % 65536 ∧
    (l.foldl combineStep (c, n)).1.current =
      (c.current + ((l.filter (fun e => !e.stale)).map escSensorData_t.current).sum)
        % 65536 ∧
    (l.foldl combineStep (c, n)).1.consumption =
      (c.consumption +
        ((l.filter (fun e => !e.stale)).map escSensorData_t.consumption).sum) % 65536 ∧
    (l.foldl combineStep (c, n)).1.rpm =
      (c.rpm + ((l.filter (fun e => !e.stale)).map escSensorData_t.rpm).sum) % 65536 := by
  induction l generalizing c n with
  | nil =>
      simp [Nat.mod_eq_of_lt hV, Nat.mod_eq_of_lt hI, Nat.mod_eq_of_lt hCo,
        Nat.mod_eq_of_lt hR]
  | cons e rest ih =>
      have he : e.temperature < 256 := hl e (List.mem_cons_self e rest)
      have hrest : ∀ x ∈ rest, x.temperature < 256 := fun x hx =>
        hl x (List.mem_cons_of_mem e hx)
      by_cases hs : e.stale = false
      · have hstep : combineStep (c, n) e =
            ({ c with temperature := (max c.temperature e.temperature) % 256,
                      voltage := (c.voltage + e.voltage) % 65536,
                      current := (c.current + e.current) % 65536,
                      consumption := (c.consumption + e.consumption) % 65536,
                      rpm := (c.rpm + e.rpm) % 65536 }, n + 1) := by
          simp [combineStep, hs]
        have hmax : (max c.temperature e.temperature) % 256 =
            max c.temperature e.temperature :=
          Nat.mod_eq_of_lt (Nat.max_lt.mpr ⟨hT, he⟩)
        obtain ⟨i1, i2, i3, i4, i5, i6, i7⟩ := ih
          { c with temperature := (max c.temperature e.temperature) % 256,
                   voltage := (c.voltage + e.voltage) % 65536,
                   current := (c.current + e.current) % 65536,
                   consumption := (c.consumption + e.consumption) % 65536,
                   rpm := (c.rpm + e.rpm) % 65536 }
          (n + 1)
          (Nat.mod_lt _ (by norm_num)) (Nat.mod_lt _ (by norm_num))
          (Nat.mod_lt _ (by norm_num)) (Nat.mod_lt _ (by norm_num))
          (Nat.mod_lt _ (by norm_num)) hrest
        rw [List.foldl_cons, hstep]
        have hfe : (e :: rest).filter (fun e => !e.stale) =
            e :: rest.filter (fun e => !e.stale) := by
          simp [List.filter_cons, hs]
        rw [hfe]
        refine ⟨?_, ?_, ?_, ?_, ?_, ?_, ?_⟩
        · rw [i1]; simp [List.length_cons]; omega
        · rw [i2]
        · rw [i3, hmax, List.map_cons, List.foldl_cons]
        · rw [i4, List.map_cons, List.sum_cons]
          show ((c.voltage + e.voltage) % 65536 + _) % 65536 = _
          rw [Nat.mod_add_mod, Nat.add_assoc]
        · rw [i5, List.map_cons, List.sum_cons]
          show ((c.current + e.current) % 65536 + _) % 65536 = _
          rw [Nat.mod_add_mod, Nat.add_assoc]
        · rw [i6, List.map_cons, List.sum_cons]
          show ((c.consumption + e.consumption) % 65536 + _) % 65536 = _
          rw [Nat.mod_add_mod, Nat.add_assoc]
        · rw [i7, List.map_cons, List.sum_cons]
          show ((c.rpm + e.rpm) % 65536 + _) % 65536 = _
          rw [Nat.mod_add_mod, Nat.add_assoc]
      · have hstep : combineStep (c, n) e = (c, n) := by
          simp [combineStep, hs]
        have hst : e.stale = true := by
          cases hq : e.stale
          · exact absurd hq hs
          · rfl
        have hfe : (e :: rest).filter (fun e => !e.stale) =
            rest.filter (fun e => !e.stale) := by
          simp [List.filter_cons, hst]
        rw [List.foldl_cons, hstep, hfe]
        exact ih c n hT hV hI hCo hR hrest

/-- C6 (amended): reading the reserved combined pseudo-index aggregates
exactly the non-stale readings of the active motors, in the store's
`uint8_t`/`uint16_t` arithmetic: temperature is their maximum, current and
consumption are their sums reduced mod 65536, voltage and rpm are the
truncated quotient of the mod-65536 sum by the number of contributing
readings, and the combined stale flag is true iff zero readings
contribute.  (These coincide with the exact maximum / sums / means
whenever the raw sums stay below 65536.) -/
theorem combined_aggregation_wrapping (mc : Nat) (d : Nat → escSensorData_t)
    (hmc : mc ≤ 255)
    (hT : ∀ i, i < mc → (d i).temperature < 256) :
    ((getEscSensorData mc d ESC_SENSOR_COMBINED).stale = true ↔
      (activeReadings mc d).length = 0) ∧
    (getEscSensorData mc d ESC_SENSOR_COMBINED).temperature =
      ((activeReadings mc d).map escSensorData_t.temperature).foldl max 0 ∧
    (getEscSensorData mc d ESC_SENSOR_COMBINED).current =
      ((activeReadings mc d).map escSensorData_t.current).sum % 65536 ∧
    (getEscSensorData mc d ESC_SENSOR_COMBINED).consumption =
      ((activeReadings mc d).map escSensorData_t.consumption).sum % 65536 ∧
    (getEscSensorData mc d ESC_SENSOR_COMBINED).voltage =
      (((activeReadings mc d).map escSensorData_t.voltage).sum % 65536) /
        (activeReadings mc d).length ∧
    (getEscSensorData mc d ESC_SENSOR_COMBINED).rpm =
      (((activeReadings mc d).map escSensorData_t.rpm).sum % 65536) /
        (activeReadings mc d).length := by
  have hb : ¬ ESC_SENSOR_COMBINED < mc := by
    simp only [ESC_SENSOR_COMBINED]; omega
  have hl : ∀ e ∈ (List.range mc).map d, e.temperature < 256 := by
    intro e he
    obtain ⟨i, hi, rfl⟩ := List.mem_map.mp he
    exact hT i (List.mem_range.mp hi)
  obtain ⟨i1, i2, i3, i4, i5, i6, i7⟩ :=
    combine_foldl ((List.range mc).map d) emptyCombined 0 (by decide) (by decide)
      (by decide) (by decide) (by decide) hl
  have hres : getEscSensorData mc d ESC_SENSOR_COMBINED =
      (if (((List.range mc).map d).foldl combineStep (emptyCombined, 0)).2 > 0 then
        { (((List.range mc).map d).foldl combineStep (emptyCombined, 0)).1 with
            stale := false,
            voltage := (((List.range mc).map d).foldl combineStep (emptyCombined, 0)).1.voltage /
              (((List.range mc).map d).foldl combineStep (emptyCombined, 0)).2,
            rpm := (((List.range mc).map d).foldl combineStep (emptyCombined, 0)).1.rpm /
              (((List.range mc).map d).foldl combineStep (emptyCombined, 0)).2 }
      else (((List.range mc).map d).foldl combineStep (emptyCombined, 0)).1) := by
    simp only [getEscSensorData, if_neg hb, if_pos rfl]
    simp
  simp only [Nat.zero_add] at i1
  simp only [activeReadings]
  by_cases hz : (((List.range mc).map d).filter (fun e => !e.stale)).length = 0
  · have hfe : ((List.range mc).map d).filter (fun e => !e.stale) = [] :=
      List.length_eq_zero.mp hz
    have hcond : ¬ (((List.range mc).map d).foldl combineStep (emptyCombined, 0)).2 > 0 := by
      rw [i1, hz]; omega
    rw [hres, if_neg hcond]
    rw [hfe] at i3 i4 i5 i6 i7 ⊢
    refine ⟨?_, ?_, ?_, ?_, ?_, ?_⟩
    · rw [i2]; simp [emptyCombined]
    · rw [i3]; simp [emptyCombined]
    · rw [i5]; simp [emptyCombined]
    · rw [i6]; simp [emptyCombined]
    · rw [i4]; simp [emptyCombined]
    · rw [i7]; simp [emptyCombined]
  · have hcond : (((List.range mc).map d).foldl combineStep (emptyCombined, 0)).2 > 0 := by
      rw [i1]; omega
    rw [hres, if_pos hcond]
    refine ⟨?_, ?_, ?_, ?_, ?_, ?_⟩
    · simp [hz]
    · simpa [emptyCombined] using i3
    · simpa [emptyCombined] using i5
    · simpa [emptyCombined] using i6
    · show (((List.range mc).map d).foldl combineStep (emptyCombined, 0)).1.voltage /
          (((List.range mc).map d).foldl combineStep (emptyCombined, 0)).2 = _
      rw [i1, i4]
      simp [emptyCombined]
    · show (((List.range mc).map d).foldl combineStep (emptyCombined, 0)).1.rpm /
          (((List.range mc).map d).foldl combineStep (emptyCombined, 0)).2 = _
      rw [i1, i7]
      simp [emptyCombined]

theorem combined_aggregation_wrapping_witness :
    ((getEscSensorData 3 dC6 ESC_SENSOR_COMBINED).stale = true ↔
      (activeReadings 3 dC6).length = 0) ∧
    (getEscSensorData 3 dC6 ESC_SENSOR_COMBINED).temperature =
      ((activeReadings 3 dC6).map escSensorData_t.temperature).foldl max 0 :=
  ⟨(combined_aggregation_wrapping 3 dC6 (by omega)
      (by intro i hi; interval_cases i <;> decide)).1,
   (combined_aggregation_wrapping 3 dC6 (by omega)
      (by intro i hi; interval_cases i <;> decide)).2.1⟩

end EscSensor
